import Mathlib

/-
  Formal model of ci-scripts/aws_client_check.py: the pylint checker
  NoGlobalS3Endpoint, which flags boto3 S3 client/resource construction
  without a region_name or endpoint_url argument.

  The checker works on astroid AST nodes.  The embedding below models the
  astroid node shapes the checker actually touches, together with the
  Python attribute-access semantics the code relies on:

  * a Name node carries a name field;
  * an Attribute node carries attrname and expr fields;
  * a Const node carries a value field (the literal value);
  * a Call node carries func, args and keywords fields - and, crucially,
    NO expr field, so hasattr(call_node, "expr") is False;
  * keyword arguments are pairs of an optional name (None for a **splat)
    and a value node, and the value node is always present;
  * every other expression shape (BinOp, Dict, Lambda, ...) carries none
    of the fields above and is modelled by the Other constructor;
  * accessing a missing attribute raises AttributeError, and indexing an
    empty list raises IndexError; both are modelled in the Except monad;
  * astroid node objects define neither a bool nor a len special method,
    so under Python truthiness every node object is truthy regardless of
    the literal it denotes (literal truthiness would be the separate
    bool_value method, which this checker never calls).
-/

namespace AwsClientCheck

/-- A Python literal value as stored in an astroid Const node. -/
inductive PyVal where
  | str (s : String)
  | int (n : Int)
  | bool (b : Bool)
  | none
  deriving DecidableEq

/-- The astroid expression shapes distinguished by the checker.  Other
stands for every node kind carrying none of the fields the checker
accesses. -/
inductive Expr where
  | Name (name : String)
  | Attribute (attrname : String) (expr : Expr)
  | Const (value : PyVal)
  | Call (func : Expr) (args : List Expr)
      (keywords : Option (List (Option String × Expr)))
  | Other

/-- A keyword-argument entry of a Call node: optional name (none models a
**splat entry, whose arg field is None) and the value node. -/
abbrev KwPair := Option String × Expr

/-- The two Python exceptions the checker's code can raise. -/
inductive PyErr where
  | attributeError
  | indexError
  deriving DecidableEq

/-- Python truthiness of an astroid node object.  astroid nodes define
neither a bool nor a len special method, so every node object is truthy,
whatever literal it represents. -/
def Expr.truthy : Expr → Bool
  | _ => true

/-- Embedding of NoGlobalS3Endpoint._kwarg_present:
return kwarg.arg == name_to_check and kwarg.value.
The name comparison is against the entry's arg field; the second conjunct
is Python truthiness of the value node. -/
def kwarg_present (kwarg : KwPair) (name_to_check : String) : Bool :=
  decide (kwarg.1 = some name_to_check) && Expr.truthy kwarg.2

/-- The ordered scan of visit_call over node.keywords: returns true when
an entry named region_name or endpoint_url (with truthy value) is found,
short-circuiting at the first match; such a find makes visit_call return
early without a message. -/
def scan_keywords : List KwPair → Bool
  | [] => false
  | kwarg :: rest =>
    if kwarg_present kwarg "region_name" then true
    else if kwarg_present kwarg "endpoint_url" then true
    else scan_keywords rest

/-- Embedding of the while loop of _is_boto_client_or_resource:
while hasattr(node, "expr"): next_node = node.expr; if
next_node.attrname in ("boto3", "boto_session") and node.attrname in
("client", "resource"): return True; node = next_node.
Only Attribute nodes have an expr field; reading attrname of a
non-Attribute next node raises AttributeError. -/
def chain_walk : Expr → Except PyErr Bool
  | Expr.Attribute attrname e =>
    match e with
    | Expr.Attribute inner_attr _ =>
      if (inner_attr = "boto3" ∨ inner_attr = "boto_session")
          ∧ (attrname = "client" ∨ attrname = "resource") then
        Except.ok true
      else chain_walk e
    | _ => Except.error PyErr.attributeError
  | _ => Except.ok false

/-- Embedding of NoGlobalS3Endpoint._is_boto_client_or_resource.  The
direct check reads node.func.expr (AttributeError when func is not an
Attribute), tests hasattr(node.func.expr, "name") and compares the name
and attrname against the fixed sets; on failure it falls through to the
chain walk, which starts AT THE CALL NODE itself. -/
def is_boto_client_or_resource (node : Expr) : Except PyErr Bool :=
  match node with
  | Expr.Call f _ _ =>
    match f with
    | Expr.Attribute fattr fexpr =>
      match fexpr with
      | Expr.Name n =>
        if (n = "boto3" ∨ n = "boto_session")
            ∧ (fattr = "client" ∨ fattr = "resource") then
          Except.ok true
        else chain_walk node
      | _ => chain_walk node
    | _ => Except.error PyErr.attributeError
  | _ => Except.ok false

/-- Embedding of NoGlobalS3Endpoint._is_s3_client_or_resource:
isinstance(node.func, astroid.Attribute) and
_is_boto_client_or_resource(node) and node.args[0].value == "s3".
The conjunction short-circuits left to right; node.args[0] raises
IndexError on an empty args list, and .value raises AttributeError when
the first argument is not a Const. -/
def is_s3_client_or_resource (node : Expr) : Except PyErr Bool :=
  match node with
  | Expr.Call f args _ =>
    match f with
    | Expr.Attribute _ _ =>
      match is_boto_client_or_resource node with
      | Except.error e => Except.error e
      | Except.ok false => Except.ok false
      | Except.ok true =>
        match args with
        | [] => Except.error PyErr.indexError
        | a :: _ =>
          match a with
          | Expr.Const v => Except.ok (decide (v = PyVal.str "s3"))
          | _ => Except.error PyErr.attributeError
    | _ => Except.ok false
  | _ => Except.error PyErr.attributeError

/-- The message identifier passed to add_message. -/
def DIAG_ID : String := "s3-with-global-endpoint"

/-- A diagnostic emitted through add_message: the fixed message id and
the node the message is attached to. -/
structure Diagnostic where
  msgId : String
  node : Expr

/-- node.keywords is not None and the keyword scan found a region_name or
endpoint_url entry. -/
def keywords_suppress : Expr → Bool
  | Expr.Call _ _ (some kws) => scan_keywords kws
  | _ => false

/-- Embedding of NoGlobalS3Endpoint.visit_call.  The result is the list
of diagnostics emitted for this node (empty or a single one), or the
Python exception the evaluation raises. -/
def visit_call (node : Expr) : Except PyErr (List Diagnostic) :=
  match is_s3_client_or_resource node with
  | Except.error e => Except.error e
  | Except.ok b =>
    if b then
      if keywords_suppress node then Except.ok []
      else Except.ok [⟨DIAG_ID, node⟩]
    else Except.ok []

/-- Helper building the call expression factory.attr(args, keywords) with
a bare-identifier base, the shape most claims quantify over. -/
def factoryCall (factory attr : String) (args : List Expr)
    (keywords : Option (List KwPair)) : Expr :=
  Expr.Call (Expr.Attribute attr (Expr.Name factory)) args keywords

/-- One step of the host traversal: the node handed to visit_call together
with the linter message store.  The source performs no assignment to any
attribute of the tree, so the node component comes back unchanged; the
store grows by the emitted diagnostics (an exception emits nothing). -/
def visit_call_step (node : Expr) (st : List Diagnostic) :
    Expr × List Diagnostic :=
  (node,
    match visit_call node with
    | Except.ok ds => st ++ ds
    | Except.error _ => st)

/-- The diagnostics one node contributes, a function of that node alone. -/
def emit_of (node : Expr) : List Diagnostic :=
  (visit_call_step node []).2

/-- The host traversal: visit each call node in order, threading the
accumulated message store through visit_call_step. -/
def run_linter (st : List Diagnostic) : List Expr → List Diagnostic
  | [] => st
  | node :: rest => run_linter (visit_call_step node st).2 rest

/-- Concatenation of the per-node contributions, each computed from its
node in isolation. -/
def emits : List Expr → List Diagnostic
  | [] => []
  | node :: rest => emit_of node ++ emits rest

/-- boto3.client() - a factory call with zero positional arguments. -/
def zero_arg_call : Expr := factoryCall "boto3" "client" [] none

/-- boto3.client(service_name) - first positional argument a Name node,
which has no value field. -/
def name_arg_call : Expr :=
  factoryCall "boto3" "client" [Expr.Name "service_name"] none

/-- session.boto_session.resource("s3") - the nested attribute-chain form,
with no override keyword. -/
def nested_chain_call : Expr :=
  Expr.Call
    (Expr.Attribute "resource" (Expr.Attribute "boto_session" (Expr.Name "session")))
    [Expr.Const (PyVal.str "s3")] none

/-- boto3.client("s3", region_name="") - override keyword present with an
empty-string literal value. -/
def empty_region_call : Expr :=
  factoryCall "boto3" "client" [Expr.Const (PyVal.str "s3")]
    (some [(some "region_name", Expr.Const (PyVal.str ""))])

lemma chain_walk_call (f : Expr) (args : List Expr)
    (kws : Option (List KwPair)) :
    chain_walk (Expr.Call f args kws) = Except.ok false := rfl

lemma scan_keywords_eq_false_of {kws : List KwPair}
    (h : ∀ kw ∈ kws, kw.1 ≠ some "region_name" ∧ kw.1 ≠ some "endpoint_url") :
    scan_keywords kws = false := by
  induction kws with
  | nil => rfl
  | cons kwarg rest ih =>
    have h1 := h kwarg (List.mem_cons_self kwarg rest)
    have h2 : ∀ kw ∈ rest, kw.1 ≠ some "region_name" ∧ kw.1 ≠ some "endpoint_url" :=
      fun kw hkw => h kw (List.mem_cons_of_mem kwarg hkw)
    simp [scan_keywords, kwarg_present, Expr.truthy, h1.1, h1.2, ih h2]

lemma scan_keywords_iff (kws : List KwPair) :
    scan_keywords kws = true ↔
      ∃ kw ∈ kws, kw.1 = some "region_name" ∨ kw.1 = some "endpoint_url" := by
  induction kws with
  | nil => simp [scan_keywords]
  | cons kwarg rest ih =>
    by_cases hr : kwarg.1 = some "region_name"
    · simp [scan_keywords, kwarg_present, Expr.truthy, hr]
    · by_cases he : kwarg.1 = some "endpoint_url"
      · simp [scan_keywords, kwarg_present, Expr.truthy, he]
      · simp [scan_keywords, kwarg_present, Expr.truthy, hr, he, ih]

lemma is_s3_factory_true (factory attr : String)
    (hf : factory = "boto3" ∨ factory = "boto_session")
    (ha : attr = "client" ∨ attr = "resource")
    (rest : List Expr) (kws : Option (List KwPair)) :
    is_s3_client_or_resource
      (factoryCall factory attr (Expr.Const (PyVal.str "s3") :: rest) kws) =
      Except.ok true := by
  rcases hf with rfl | rfl <;> rcases ha with rfl | rfl <;> rfl

lemma visit_call_of_true {node : Expr}
    (h : is_s3_client_or_resource node = Except.ok true) :
    visit_call node =
      if keywords_suppress node then Except.ok []
      else Except.ok [⟨DIAG_ID, node⟩] := by
  unfold visit_call
  rw [h]
  rfl

lemma visit_call_of_false {node : Expr}
    (h : is_s3_client_or_resource node = Except.ok false) :
    visit_call node = Except.ok [] := by
  unfold visit_call
  rw [h]
  rfl

lemma keywords_suppress_factory (factory attr : String) (args : List Expr)
    (kws : List KwPair) :
    keywords_suppress (factoryCall factory attr args (some kws)) =
      scan_keywords kws := rfl

lemma visit_call_step_snd (node : Expr) (st : List Diagnostic) :
    (visit_call_step node st).2 = st ++ emit_of node := by
  cases h : visit_call node <;> simp [visit_call_step, emit_of, h]

/-- Claim C1: for every call factory.client("s3", ...) or
factory.resource("s3", ...) whose base is one of the recognized factory
identifiers boto3 or boto_session and which carries no region_name or
endpoint_url keyword entry, visit_call emits exactly one diagnostic, with
the fixed identifier, attached to that call node. -/
theorem claim_C1 (factory attr : String) (rest : List Expr)
    (kws : Option (List KwPair))
    (hf : factory = "boto3" ∨ factory = "boto_session")
    (ha : attr = "client" ∨ attr = "resource")
    (hk : ∀ kw ∈ kws.getD [],
      kw.1 ≠ some "region_name" ∧ kw.1 ≠ some "endpoint_url") :
    visit_call (factoryCall factory attr (Expr.Const (PyVal.str "s3") :: rest) kws) =
      Except.ok
        [⟨DIAG_ID, factoryCall factory attr (Expr.Const (PyVal.str "s3") :: rest) kws⟩] := by
  rw [visit_call_of_true (is_s3_factory_true factory attr hf ha rest kws)]
  cases kws with
  | none => rfl
  | some l =>
    rw [keywords_suppress_factory, scan_keywords_eq_false_of (by simpa using hk)]
    rfl

/-- Claim C1 witness: boto3.client("s3") with no keyword arguments emits
exactly the one diagnostic attached to the call node. -/
theorem claim_C1_witness :
    visit_call (factoryCall "boto3" "client" [Expr.Const (PyVal.str "s3")] none) =
      Except.ok
        [⟨DIAG_ID, factoryCall "boto3" "client" [Expr.Const (PyVal.str "s3")] none⟩] :=
  claim_C1 "boto3" "client" [] none (Or.inl rfl) (Or.inl rfl) (by simp)

/-- Claim C2, behaviour of the code at the claimed inputs: contrary to the
claim, visit_call raises.  boto3.client() with zero positional arguments
raises IndexError at node.args[0], and boto3.client(service_name) with a
non-literal first argument raises AttributeError at node.args[0].value,
instead of resolving silently to no-match. -/
theorem claim_C2_code_raises :
    visit_call zero_arg_call = Except.error PyErr.indexError ∧
    visit_call name_arg_call = Except.error PyErr.attributeError :=
  ⟨rfl, rfl⟩

/-- Claim C3, behaviour of the code at the claimed input: the chain-walk
fallback of _is_boto_client_or_resource starts its hasattr(node, "expr")
loop at the Call node itself, and a Call node has no expr field, so the
walk returns false for every call; consequently
session.boto_session.resource("s3") without an override emits zero
diagnostics, not one. -/
theorem claim_C3_chain_walk_unreachable :
    (∀ (f : Expr) (args : List Expr) (kws : Option (List KwPair)),
      chain_walk (Expr.Call f args kws) = Except.ok false) ∧
    visit_call nested_chain_call = Except.ok [] :=
  ⟨chain_walk_call, rfl⟩

/-- Claim C4: a target call carrying a keyword entry named region_name or
endpoint_url (value node present) emits zero diagnostics. -/
theorem claim_C4 (factory attr : String) (rest : List Expr)
    (kws : List KwPair) (v : Expr)
    (hf : factory = "boto3" ∨ factory = "boto_session")
    (ha : attr = "client" ∨ attr = "resource")
    (hkw : (some "region_name", v) ∈ kws ∨ (some "endpoint_url", v) ∈ kws) :
    visit_call
      (factoryCall factory attr (Expr.Const (PyVal.str "s3") :: rest) (some kws)) =
      Except.ok [] := by
  rw [visit_call_of_true (is_s3_factory_true factory attr hf ha rest (some kws)),
    keywords_suppress_factory]
  have hscan : scan_keywords kws = true := by
    refine (scan_keywords_iff kws).mpr ?_
    rcases hkw with h | h
    · exact ⟨(some "region_name", v), h, Or.inl rfl⟩
    · exact ⟨(some "endpoint_url", v), h, Or.inr rfl⟩
  rw [hscan]
  rfl

/-- Claim C4 witness: boto3.client("s3", region_name="us-east-1") emits
zero diagnostics. -/
theorem claim_C4_witness :
    visit_call (factoryCall "boto3" "client" [Expr.Const (PyVal.str "s3")]
      (some [(some "region_name", Expr.Const (PyVal.str "us-east-1"))])) =
      Except.ok [] :=
  claim_C4 "boto3" "client" []
    [(some "region_name", Expr.Const (PyVal.str "us-east-1"))]
    (Expr.Const (PyVal.str "us-east-1")) (Or.inl rfl) (Or.inl rfl)
    (Or.inl (List.mem_singleton.mpr rfl))

/-- Claim C5 counterexample: boto3.client("s3", region_name="") emits ZERO
diagnostics, not one: the keyword's value field is an astroid node object,
which is truthy under Python semantics even when the literal it denotes is
the empty string, so the ordered scan accepts it as an override. -/
theorem claim_C5_counterexample :
    visit_call empty_region_call = Except.ok [] ∧
    visit_call empty_region_call ≠
      Except.ok [⟨DIAG_ID, empty_region_call⟩] := by
  refine ⟨rfl, fun h => ?_⟩
  have h2 : (Except.ok [] : Except PyErr (List Diagnostic)) =
      Except.ok [⟨DIAG_ID, empty_region_call⟩] := h
  simp at h2

/-- Claim C5 amended: a keyword entry named region_name or endpoint_url
suppresses the diagnostic regardless of its value - in particular with an
empty-string literal value - because the entry's value field is an AST
node object and astroid nodes define no bool or len special method, so the
truthiness test on the value field always passes. -/
theorem claim_C5_amended (factory attr kwname : String) (v : Expr)
    (hf : factory = "boto3" ∨ factory = "boto_session")
    (ha : attr = "client" ∨ attr = "resource")
    (hn : kwname = "region_name" ∨ kwname = "endpoint_url") :
    visit_call (factoryCall factory attr [Expr.Const (PyVal.str "s3")]
      (some [(some kwname, v)])) = Except.ok [] := by
  rw [visit_call_of_true
      (is_s3_factory_true factory attr hf ha [] (some [(some kwname, v)])),
    keywords_suppress_factory]
  have hscan : scan_keywords [(some kwname, v)] = true := by
    refine (scan_keywords_iff _).mpr ⟨(some kwname, v), List.mem_singleton.mpr rfl, ?_⟩
    rcases hn with rfl | rfl
    · exact Or.inl rfl
    · exact Or.inr rfl
  rw [hscan]
  rfl

/-- Claim C5 amended witness: boto3.client("s3", region_name="") emits
zero diagnostics. -/
theorem claim_C5_amended_witness :
    visit_call (factoryCall "boto3" "client" [Expr.Const (PyVal.str "s3")]
      (some [(some "region_name", Expr.Const (PyVal.str ""))])) =
      Except.ok [] :=
  claim_C5_amended "boto3" "client" "region_name" (Expr.Const (PyVal.str ""))
    (Or.inl rfl) (Or.inl rfl) (Or.inl rfl)

/-- Claim C6: a recognized factory call whose first positional argument is
a literal string different from "s3" is not a target call, and visit_call
emits zero diagnostics for it. -/
theorem claim_C6 (factory attr service : String) (rest : List Expr)
    (kws : Option (List KwPair))
    (hf : factory = "boto3" ∨ factory = "boto_session")
    (ha : attr = "client" ∨ attr = "resource")
    (hs : service ≠ "s3") :
    is_s3_client_or_resource
      (factoryCall factory attr (Expr.Const (PyVal.str service) :: rest) kws) =
      Except.ok false ∧
    visit_call
      (factoryCall factory attr (Expr.Const (PyVal.str service) :: rest) kws) =
      Except.ok [] := by
  have h1 : is_s3_client_or_resource
      (factoryCall factory attr (Expr.Const (PyVal.str service) :: rest) kws) =
      Except.ok false := by
    rcases hf with rfl | rfl <;> rcases ha with rfl | rfl <;>
      simp [is_s3_client_or_resource, is_boto_client_or_resource, factoryCall, hs]
  exact ⟨h1, visit_call_of_false h1⟩

/-- Claim C6 witness: boto3.client("ec2") is not a target call and emits
zero diagnostics. -/
theorem claim_C6_witness :
    is_s3_client_or_resource
      (factoryCall "boto3" "client" [Expr.Const (PyVal.str "ec2")] none) =
      Except.ok false ∧
    visit_call (factoryCall "boto3" "client" [Expr.Const (PyVal.str "ec2")] none) =
      Except.ok [] :=
  claim_C6 "boto3" "client" "ec2" [] none (Or.inl rfl) (Or.inl rfl) (by decide)

/-- Claim C7: a call whose callee base identifier is not one of the
recognized factory names emits zero diagnostics, whatever the invoked
attribute, positional arguments and keyword arguments are. -/
theorem claim_C7 (base attr : String) (args : List Expr)
    (kws : Option (List KwPair))
    (hb1 : base ≠ "boto3") (hb2 : base ≠ "boto_session") :
    visit_call (factoryCall base attr args kws) = Except.ok [] := by
  have hboto : is_boto_client_or_resource (factoryCall base attr args kws) =
      Except.ok false := by
    simp [is_boto_client_or_resource, factoryCall, chain_walk_call, hb1, hb2]
  have h1 : is_s3_client_or_resource (factoryCall base attr args kws) =
      Except.ok false := by
    simp only [is_s3_client_or_resource, factoryCall]
    rw [show Expr.Call (Expr.Attribute attr (Expr.Name base)) args kws =
        factoryCall base attr args kws from rfl, hboto]
  exact visit_call_of_false h1

/-- Claim C7 witness: other.client("s3") with no keyword arguments emits
zero diagnostics. -/
theorem claim_C7_witness :
    visit_call (factoryCall "other" "client" [Expr.Const (PyVal.str "s3")] none) =
      Except.ok [] :=
  claim_C7 "other" "client" [Expr.Const (PyVal.str "s3")] none (by decide) (by decide)

/-- Claim C8: evaluation never mutates the tree: the node component coming
out of a traversal step is the very node that went in; the only effect of
a step is the growth of the message store. -/
theorem claim_C8 (node : Expr) (st : List Diagnostic) :
    (visit_call_step node st).1 = node := rfl

/-- Claim C9: the rule is stateless and deterministic across invocations:
a whole traversal run equals the initial store followed by one
contribution per node, each contribution a function (emit_of) of that
single node alone - so the outcome for a node does not depend on the
order of, interleaving with, or results of any other invocations. -/
theorem claim_C9 (st : List Diagnostic) (nodes : List Expr) :
    run_linter st nodes = st ++ emits nodes := by
  induction nodes generalizing st with
  | nil => simp [run_linter, emits]
  | cons n rest ih => simp [run_linter, emits, visit_call_step_snd, ih]

/-- Claim C10: for a target call, the diagnostic is suppressed exactly
when some keyword entry's name field is literally region_name or
endpoint_url and its value node is truthy; a region passed as a second
positional argument does not suppress, and a **splat entry (whose name
field is None) does not suppress. -/
theorem claim_C10 (factory attr : String) (rest : List Expr)
    (kws : List KwPair)
    (hf : factory = "boto3" ∨ factory = "boto_session")
    (ha : attr = "client" ∨ attr = "resource") :
    (visit_call
        (factoryCall factory attr (Expr.Const (PyVal.str "s3") :: rest) (some kws)) =
        Except.ok [] ↔
      ∃ kw ∈ kws, (kw.1 = some "region_name" ∨ kw.1 = some "endpoint_url") ∧
        Expr.truthy kw.2 = true) ∧
    visit_call (factoryCall factory attr
        [Expr.Const (PyVal.str "s3"), Expr.Const (PyVal.str "us-west-2")] (some [])) =
      Except.ok [⟨DIAG_ID, factoryCall factory attr
        [Expr.Const (PyVal.str "s3"), Expr.Const (PyVal.str "us-west-2")] (some [])⟩] ∧
    ∀ splat : Expr,
      visit_call
        (factoryCall factory attr [Expr.Const (PyVal.str "s3")] (some [(none, splat)])) =
        Except.ok [⟨DIAG_ID,
          factoryCall factory attr [Expr.Const (PyVal.str "s3")] (some [(none, splat)])⟩] := by
  refine ⟨?_, ?_, ?_⟩
  · rw [visit_call_of_true (is_s3_factory_true factory attr hf ha rest (some kws)),
      keywords_suppress_factory]
    by_cases hscan : scan_keywords kws = true
    · obtain ⟨kw, hmem, hname⟩ := (scan_keywords_iff kws).mp hscan
      exact iff_of_true (by rw [hscan]; rfl) ⟨kw, hmem, hname, rfl⟩
    · have hscan2 : scan_keywords kws = false := by
        simpa using hscan
      refine iff_of_false ?_ ?_
      · rw [hscan2]
        simp
      · rintro ⟨kw, hmem, hname, -⟩
        exact hscan ((scan_keywords_iff kws).mpr ⟨kw, hmem, hname⟩)
  · rw [visit_call_of_true
      (is_s3_factory_true factory attr hf ha [Expr.Const (PyVal.str "us-west-2")] (some []))]
    rfl
  · intro splat
    rw [visit_call_of_true
      (is_s3_factory_true factory attr hf ha [] (some [(none, splat)]))]
    rfl

/-- Claim C10 witness: boto3.client("s3", "us-west-2") - region supplied
as a second positional argument - still emits the diagnostic. -/
theorem claim_C10_witness :
    visit_call (factoryCall "boto3" "client"
        [Expr.Const (PyVal.str "s3"), Expr.Const (PyVal.str "us-west-2")] (some [])) =
      Except.ok [⟨DIAG_ID, factoryCall "boto3" "client"
        [Expr.Const (PyVal.str "s3"), Expr.Const (PyVal.str "us-west-2")] (some [])⟩] :=
  (claim_C10 "boto3" "client" [] [] (Or.inl rfl) (Or.inl rfl)).2.1

end AwsClientCheck
